import Mathlib

/-!
Shallow embedding of `src/app.py` (SkyCast Analytics dashboard).

The program is a Streamlit page: two leaf HTTP-fetching functions
(`get_coordinates`, `get_weather_data`) and a linear page script that
geocodes two cities, fetches their daily max-temperature series, computes
means, concatenates the tagged series and pivots them into a wide table.

Modelling conventions:
* An outbound HTTP call's outcome is an oracle value of type `HttpOutcome β`:
  either a response with an integer status code and an already-parsed JSON
  body of shape `β`, or a network-level failure (connection error / timeout).
  `requests.get` in the source sets no timeout and the script has no
  `try`/`except`, so a network-level failure surfaces as a raised exception;
  raising is modelled by `Except PyExn`.
* JSON fields that the source may find missing are `Option`-valued; fields the
  external-interface contract makes mandatory (latitude, longitude, name of a
  geocoding result) are plain fields.
* Python floats are modelled as `ℚ`; dates are opaque `String`s (the source
  only formats and reparses them, never computes with them in the parts the
  claims touch).
-/

/-- A Python exception surfaced by the embedded code paths. -/
inductive PyExn : Type
  | requestsError   -- requests.exceptions.RequestException (incl. timeouts)
  | keyError        -- KeyError from a missing dict key
  | valueError      -- ValueError (pandas: unequal column lengths, duplicate pivot entries)
  deriving DecidableEq, Repr

/-- Outcome of one `requests.get` call: a parsed response or a network failure. -/
inductive HttpOutcome (β : Type) : Type
  | response (status : ℕ) (body : β)
  | networkError
  deriving DecidableEq, Repr

/-- One entry of the geocoding response's `"results"` array.  Per the external
interface, `latitude`, `longitude` and `name` are always present; `country`
is optional. -/
structure GeoEntry : Type where
  latitude : ℚ
  longitude : ℚ
  name : String
  country : Option String
  deriving DecidableEq, Repr

/-- Parsed JSON body of a geocoding response; the `"results"` key may be absent. -/
structure GeoBody : Type where
  results : Option (List GeoEntry)
  deriving DecidableEq, Repr

/-- The two shapes `get_coordinates` can return: the 4-tuple
`(latitude, longitude, name, country)` on success, or the not-found signal
`(None, None, None, None)`. -/
inductive GeoRet : Type
  | found (lat lon : ℚ) (name country : String)
  | notFound
  deriving DecidableEq, Repr

/-- `get_coordinates` from `src/app.py` (lines 30-39): on a 200 response with a
non-empty `"results"` array, return the first result's latitude, longitude,
name and `result.get("country", "")`; on any other *response* fall through to
`(None, None, None, None)`.  A network failure of `requests.get` is uncaught
and propagates (`.error`). -/
def get_coordinates (call : HttpOutcome GeoBody) : Except PyExn GeoRet :=
  match call with
  | .networkError => .error .requestsError
  | .response status body =>
    if status = 200 then
      match body.results with
      | some (r :: _) => .ok (.found r.latitude r.longitude r.name (r.country.getD ""))
      | some [] => .ok .notFound
      | none => .ok .notFound
    else .ok .notFound

/-- The `"daily"` JSON object of an archive-weather response; either parallel
array may be absent (the source only tests for the `"daily"` key itself). -/
structure DailyObj : Type where
  time : Option (List String)
  temperature_2m_max : Option (List ℚ)
  deriving DecidableEq, Repr

/-- Parsed JSON body of an archive-weather response; `"daily"` may be absent. -/
structure WeatherBody : Type where
  daily : Option DailyObj
  deriving DecidableEq, Repr

/-- A row of the per-city dataframe: (`"Date"`, `"Max Temp"`). -/
abbrev WeatherRow : Type := String × ℚ

/-- `get_weather_data` from `src/app.py` (lines 41-61).  On a 200 response whose
body has a `"daily"` key it builds `pd.DataFrame({"Date": ..., "Max Temp": ...})`
from the two parallel arrays; a missing `"time"` or `"temperature_2m_max"` key
raises `KeyError`, arrays of different lengths make the `DataFrame` constructor
raise `ValueError`.  On a non-200 response or a body without `"daily"` it
returns `None` (modelled `.ok none`).  A network failure of `requests.get` is
uncaught and propagates. -/
def get_weather_data (call : HttpOutcome WeatherBody) : Except PyExn (Option (List WeatherRow)) :=
  match call with
  | .networkError => .error .requestsError
  | .response status body =>
    if status = 200 then
      match body.daily with
      | none => .ok none
      | some d =>
        match d.time with
        | none => .error .keyError
        | some ts =>
          match d.temperature_2m_max with
          | none => .error .keyError
          | some temps =>
            if ts.length = temps.length then .ok (some (ts.zip temps))
            else .error .valueError
    else .ok none

/-- A row of the long-format `combined_df`: `"Date"`, `"City"` label, `"Max Temp"`. -/
structure Row : Type where
  date : String
  city : String
  temp : ℚ
  deriving DecidableEq, Repr

/-- `df["City"] = label` (lines 99-100): tag every row of a per-city dataframe
with the city label, yielding long-format rows. -/
def tagCity (label : String) (df : List WeatherRow) : List Row :=
  df.map (fun p => ⟨p.1, label, p.2⟩)

/-- `df["Max Temp"].mean()` (lines 104-105): arithmetic mean of the series.
(pandas yields NaN on an empty column; no claim touches that case.) -/
def seriesMean (df : List WeatherRow) : ℚ :=
  (df.map Prod.snd).sum / df.length

/-- The wide table produced by `combined_df.pivot(index="Date", columns="City",
values="Max Temp")` (line 141): its row index (the distinct dates) and its
columns (the distinct city labels).  pandas additionally sorts both index and
columns lexicographically; that is a permutation of these lists which no
claim depends on, so the model keeps first-occurrence order. -/
structure PivotTable : Type where
  dates : List String
  cities : List String
  deriving DecidableEq, Repr

/-- The cell of the pivoted table at (date `d`, city `c`): the unique matching
row's value, or absent (pandas `NaN`, rendered as an empty cell). -/
def pivotCell (rows : List Row) (d c : String) : Option ℚ :=
  (rows.find? (fun r => r.date = d ∧ r.city = c)).map Row.temp

/-- `DataFrame.pivot` (line 141): raises `ValueError` when the long table
contains duplicate (index, column) entries, otherwise produces the wide table
with one row per distinct date and one column per distinct city label. -/
def pivot (rows : List Row) : Except PyExn PivotTable :=
  if (rows.map (fun r => (r.date, r.city))).Nodup then
    .ok ⟨(rows.map Row.date).dedup, (rows.map Row.city).dedup⟩
  else .error .valueError

/-- The banner messages the page script can show (`st.info`, `st.warning`,
`st.error`). -/
inductive Msg : Type
  | infoPrompt    -- "Please select a valid date range (Start and End date)."
  | warnNotFound  -- "Could not find one or both cities. ..."
  | errFetch      -- "Failed to fetch weather data. ..."
  deriving DecidableEq, Repr

/-- The value of `st.date_input`: a single date, or a sequence of dates
(Streamlit returns a 1- or 2-tuple while the user is mid-selection). -/
inductive DateRangeVal : Type
  | single (d : String)
  | seq (ds : List String)
  deriving DecidableEq, Repr

/-- Line 85's guard `isinstance(date_range, (list, tuple)) and len(date_range) == 2`,
returning the unpacked `start_date, end_date = date_range` when it passes. -/
def dateRangePair : DateRangeVal → Option (String × String)
  | .single _ => none
  | .seq [s, e] => some (s, e)
  | .seq _ => none

/-- One recorded `get_weather_data(lat, lon, start_date, end_date)` call. -/
structure FetchCall : Type where
  lat : ℚ
  lon : ℚ
  startDate : String
  endDate : String
  deriving DecidableEq, Repr

/-- The environment of one script run: the user's widget inputs and an oracle
for the outcome of each outbound HTTP call the script may make. -/
structure Env : Type where
  cityA : String
  cityB : String
  dateRange : DateRangeVal
  geoA : HttpOutcome GeoBody
  geoB : HttpOutcome GeoBody
  weatherA : HttpOutcome WeatherBody
  weatherB : HttpOutcome WeatherBody

/-- Observable outcome of one script run: which external calls were issued,
which banner (if any) was shown, the metric values, the long-format chart
data, the pivoted table, and the exception (if any) that escaped the script.
Streamlit renders effects as they happen, so fields that were produced before
a later statement raised are still recorded. -/
structure PageOut : Type where
  geoCalls : List String := []
  fetchCalls : List FetchCall := []
  msg : Option Msg := none
  metrics : Option (ℚ × ℚ) := none
  chartRows : Option (List Row) := none
  pivotTable : Option PivotTable := none
  exn : Option PyExn := none
  deriving DecidableEq, Repr

/-- Lines 97-142: the body run after both weather fetches returned.  `df_a` and
`df_b` are the two fetch results (`None` or a dataframe). -/
def renderPhase (geoCalls : List String) (fetchCalls : List FetchCall)
    (nameA countryA nameB countryB : String)
    (odfA odfB : Option (List WeatherRow)) : PageOut :=
  match odfA, odfB with
  | some dfA, some dfB =>
    let labelA := nameA ++ ", " ++ countryA
    let labelB := nameB ++ ", " ++ countryB
    let combined := tagCity labelA dfA ++ tagCity labelB dfB
    let avgA := seriesMean dfA
    let avgB := seriesMean dfB
    match pivot combined with
    | .error e =>
      { geoCalls := geoCalls, fetchCalls := fetchCalls, metrics := some (avgA, avgB),
        chartRows := some combined, pivotTable := none, exn := some e }
    | .ok pt =>
      { geoCalls := geoCalls, fetchCalls := fetchCalls, metrics := some (avgA, avgB),
        chartRows := some combined, pivotTable := some pt }
  | _, _ =>
    { geoCalls := geoCalls, fetchCalls := fetchCalls, msg := some .errFetch }

/-- Lines 94-96: issue the two weather fetches (both geocoded latitudes were
truthy), then continue with `renderPhase`.  An uncaught exception from either
fetch aborts the script at that point. -/
def fetchPhase (env : Env) (startD endD : String)
    (latA lonA : ℚ) (nameA countryA : String)
    (latB lonB : ℚ) (nameB countryB : String) : PageOut :=
  let geoCalls := [env.cityA, env.cityB]
  let callA : FetchCall := ⟨latA, lonA, startD, endD⟩
  match get_weather_data env.weatherA with
  | .error e => { geoCalls := geoCalls, fetchCalls := [callA], exn := some e }
  | .ok odfA =>
    let callB : FetchCall := ⟨latB, lonB, startD, endD⟩
    match get_weather_data env.weatherB with
    | .error e => { geoCalls := geoCalls, fetchCalls := [callA, callB], exn := some e }
    | .ok odfB =>
      renderPhase geoCalls [callA, callB] nameA countryA nameB countryB odfA odfB

/-- The page script of `src/app.py` (lines 85-148).  Checks the date range
(else `st.info`), geocodes both cities, tests `if lat_a and lat_b:` — Python
truthiness, so `None` *and* the float `0.0` both fail the test — then fetches
and renders, or shows `st.warning`.  Uncaught exceptions from the fetch
functions abort the script. -/
def run_page (env : Env) : PageOut :=
  match dateRangePair env.dateRange with
  | none => { msg := some .infoPrompt }
  | some (startD, endD) =>
    match get_coordinates env.geoA with
    | .error e => { geoCalls := [env.cityA], exn := some e }
    | .ok ga =>
      match get_coordinates env.geoB with
      | .error e => { geoCalls := [env.cityA, env.cityB], exn := some e }
      | .ok gb =>
        match ga, gb with
        | .found latA lonA nameA countryA, .found latB lonB nameB countryB =>
          if latA = 0 ∨ latB = 0 then
            { geoCalls := [env.cityA, env.cityB], msg := some .warnNotFound }
          else
            fetchPhase env startD endD latA lonA nameA countryA latB lonB nameB countryB
        | _, _ =>
          { geoCalls := [env.cityA, env.cityB], msg := some .warnNotFound }

/-! ## Sample inputs used by concrete-scenario theorems and witnesses -/

/-- Environment of spec section 8's example scenario: "New York" and "London"
resolve, a 3-day mocked weather response gives `[20.0, 21.5, 19.0]` for A and
`[10.0, 11.0, 9.5]` for B. -/
def envC8 : Env :=
  { cityA := "New York"
    cityB := "London"
    dateRange := .seq ["2024-01-01", "2024-01-03"]
    geoA := .response 200 ⟨some [⟨(407 : ℚ)/10, -74, "New York", some "United States"⟩]⟩
    geoB := .response 200 ⟨some [⟨(515 : ℚ)/10, 0, "London", some "United Kingdom"⟩]⟩
    weatherA := .response 200
      ⟨some ⟨some ["2024-01-01", "2024-01-02", "2024-01-03"], some [20, (43 : ℚ)/2, 19]⟩⟩
    weatherB := .response 200
      ⟨some ⟨some ["2024-01-01", "2024-01-02", "2024-01-03"], some [10, 11, (19 : ℚ)/2]⟩⟩ }

/-- Environment for C4's witness: geocoding City A yields an empty result
list, City B resolves. -/
def envC4w : Env :=
  { cityA := "Atlantis"
    cityB := "London"
    dateRange := .seq ["2024-01-01", "2024-01-03"]
    geoA := .response 200 ⟨some []⟩
    geoB := .response 200 ⟨some [⟨(515 : ℚ)/10, 0, "London", some "United Kingdom"⟩]⟩
    weatherA := .response 200 ⟨some ⟨some ["2024-01-01"], some [20]⟩⟩
    weatherB := .response 200 ⟨some ⟨some ["2024-01-01"], some [10]⟩⟩ }

/-- Environment for C7's witness: the date picker holds a single date, so the
two-endpoint guard fails. -/
def envC7w : Env :=
  { cityA := "New York"
    cityB := "London"
    dateRange := .single "2024-01-01"
    geoA := .response 200 ⟨some [⟨1, 2, "New York", some "United States"⟩]⟩
    geoB := .response 200 ⟨some [⟨3, 4, "London", some "United Kingdom"⟩]⟩
    weatherA := .response 200 ⟨some ⟨some ["2024-01-01"], some [20]⟩⟩
    weatherB := .response 200 ⟨some ⟨some ["2024-01-01"], some [10]⟩⟩ }

/-- Environment for C9's witness: geocoding City A succeeds with latitude 0.0
(a point on the equator); City B resolves normally. -/
def envC9w : Env :=
  { cityA := "Null Island"
    cityB := "London"
    dateRange := .seq ["2024-01-01", "2024-01-03"]
    geoA := .response 200 ⟨some [⟨0, 7, "Null Island", none⟩]⟩
    geoB := .response 200 ⟨some [⟨(515 : ℚ)/10, 0, "London", some "United Kingdom"⟩]⟩
    weatherA := .response 200 ⟨some ⟨some ["2024-01-01"], some [20]⟩⟩
    weatherB := .response 200 ⟨some ⟨some ["2024-01-01"], some [10]⟩⟩ }

/-- Second environment for C9's witness: both latitudes nonzero but both
longitudes 0.0 — the script still issues the weather fetches with those
longitudes, showing the longitude is never validated. -/
def envC9w2 : Env :=
  { cityA := "Greenwich"
    cityB := "Lyon"
    dateRange := .seq ["2024-01-01", "2024-01-03"]
    geoA := .response 200 ⟨some [⟨(515 : ℚ)/10, 0, "Greenwich", some "United Kingdom"⟩]⟩
    geoB := .response 200 ⟨some [⟨(457 : ℚ)/10, 0, "Lyon", some "France"⟩]⟩
    weatherA := .response 200 ⟨some ⟨some ["2024-01-01"], some [20]⟩⟩
    weatherB := .response 200 ⟨some ⟨some ["2024-01-01"], some [10]⟩⟩ }

/-- Environment for C10's witness: both text inputs name the same city, both
geocode to the same "London, United Kingdom" label and the same coordinates,
and both weather fetches return the same 2-day series. -/
def envC10w : Env :=
  { cityA := "London"
    cityB := "london"
    dateRange := .seq ["2024-01-01", "2024-01-02"]
    geoA := .response 200 ⟨some [⟨(515 : ℚ)/10, -1, "London", some "United Kingdom"⟩]⟩
    geoB := .response 200 ⟨some [⟨(515 : ℚ)/10, -1, "London", some "United Kingdom"⟩]⟩
    weatherA := .response 200 ⟨some ⟨some ["2024-01-01", "2024-01-02"], some [10, 11]⟩⟩
    weatherB := .response 200 ⟨some ⟨some ["2024-01-01", "2024-01-02"], some [10, 11]⟩⟩ }

/-! ## Claims -/

/-- C1 counterexample: a network error during the geocoding call does *not*
produce the `(None, None, None, None)` signal — `requests.get` is called
without `try`/`except` (and without a timeout), so the exception propagates
out of `get_coordinates`, refuting "never raises an exception". -/
theorem c1_network_error_raises :
    get_coordinates HttpOutcome.networkError ≠ Except.ok GeoRet.notFound ∧
    get_coordinates HttpOutcome.networkError = Except.error PyExn.requestsError := by
  refine ⟨?_, rfl⟩
  intro h
  exact Except.noConfusion h

/-- C1 (amended): for every geocoding *response* that fails — non-200 HTTP
status, or a 200 body whose `"results"` list is absent or empty —
`get_coordinates` returns the not-found signal `(None, None, None, None)`
without raising; network errors and timeouts, however, propagate as uncaught
exceptions. -/
theorem c1_geocoder_not_found (s : ℕ) (b : GeoBody)
    (h : s ≠ 200 ∨ b.results = none ∨ b.results = some []) :
    get_coordinates (HttpOutcome.response s b) = Except.ok GeoRet.notFound := by
  rcases h with hs | hr | hr
  · simp [get_coordinates, hs]
  · simp [get_coordinates, hr]
  · simp [get_coordinates, hr]

/-- C1 witness: the amended theorem evaluated on a 404 response. -/
theorem c1_geocoder_not_found_witness :
    get_coordinates (HttpOutcome.response 404 ⟨some [⟨1, 2, "Paris", none⟩]⟩) =
      Except.ok GeoRet.notFound :=
  c1_geocoder_not_found 404 ⟨some [⟨1, 2, "Paris", none⟩]⟩ (Or.inl (by decide))

/-- C5: on a 200 geocoding response with a non-empty `"results"` array,
`get_coordinates` returns the first result's latitude, longitude and name,
together with its country via `result.get("country", "")` — the country
itself when present, the empty string when the upstream result omits it. -/
theorem c5_geocoder_first_result (s : ℕ) (b : GeoBody) (r : GeoEntry) (rest : List GeoEntry)
    (hs : s = 200) (hr : b.results = some (r :: rest)) :
    get_coordinates (HttpOutcome.response s b) =
      Except.ok (GeoRet.found r.latitude r.longitude r.name (r.country.getD "")) ∧
    (∀ c, r.country = some c → r.country.getD "" = c) ∧
    (r.country = none → r.country.getD "" = "") := by
  subst hs
  refine ⟨by simp [get_coordinates, hr], ?_, ?_⟩
  · intro c hc; rw [hc]; rfl
  · intro hc; rw [hc]; rfl

/-- C5 witness: the theorem evaluated on a concrete 200 response whose first
result carries a country, and the resulting 4-tuple. -/
theorem c5_geocoder_first_result_witness :
    get_coordinates (HttpOutcome.response 200 ⟨some [⟨(407 : ℚ)/10, -74, "New York", some "United States"⟩]⟩) =
      Except.ok (GeoRet.found ((407 : ℚ)/10) (-74) "New York" "United States") := by
  have h := c5_geocoder_first_result 200
    ⟨some [⟨(407 : ℚ)/10, -74, "New York", some "United States"⟩]⟩
    ⟨(407 : ℚ)/10, -74, "New York", some "United States"⟩ [] rfl rfl
  exact h.1

/-- C2: on a 200 weather response whose `"daily"` object holds parallel
arrays `"time"` and `"temperature_2m_max"` of N entries each,
`get_weather_data` returns a table of exactly N (date, max-temperature)
rows whose order matches the order of the input arrays. -/
theorem c2_weather_round_trip (b : WeatherBody) (d : DailyObj)
    (ts : List String) (temps : List ℚ)
    (hb : b.daily = some d) (ht : d.time = some ts) (hm : d.temperature_2m_max = some temps)
    (hlen : ts.length = temps.length) :
    get_weather_data (HttpOutcome.response 200 b) = Except.ok (some (ts.zip temps)) ∧
    (ts.zip temps).length = ts.length ∧
    (ts.zip temps).map Prod.fst = ts ∧
    (ts.zip temps).map Prod.snd = temps := by
  refine ⟨?_, ?_, ?_, ?_⟩
  · simp [get_weather_data, hb, ht, hm, hlen]
  · rw [List.length_zip, hlen, min_self]
  · exact List.map_fst_zip ts temps (le_of_eq hlen)
  · exact List.map_snd_zip ts temps (le_of_eq hlen.symm)

/-- C2 witness: the theorem evaluated on a concrete 2-day response. -/
theorem c2_weather_round_trip_witness :
    get_weather_data (HttpOutcome.response 200 ⟨some ⟨some ["2024-01-01", "2024-01-02"], some [20, 21]⟩⟩) =
      Except.ok (some [("2024-01-01", 20), ("2024-01-02", 21)]) := by
  have h := c2_weather_round_trip ⟨some ⟨some ["2024-01-01", "2024-01-02"], some [20, 21]⟩⟩
    ⟨some ["2024-01-01", "2024-01-02"], some [20, 21]⟩
    ["2024-01-01", "2024-01-02"] [20, 21] rfl rfl rfl (by decide)
  exact h.1

/-- C3 counterexample: a 200 weather response whose `"daily"` object lacks the
`"time"` array does *not* yield `None` — the source only checks for the
`"daily"` key, so `data["daily"]["time"]` raises `KeyError`; likewise a
network error propagates.  `None` is therefore not the only failure signal,
refuting the claim as stated. -/
theorem c3_missing_field_raises :
    get_weather_data (HttpOutcome.response 200 ⟨some ⟨none, some [20]⟩⟩) =
      Except.error PyExn.keyError ∧
    get_weather_data (HttpOutcome.networkError) = Except.error PyExn.requestsError := by
  exact ⟨rfl, rfl⟩

/-- C3 (amended): `get_weather_data` returns the absent-data signal `None`
exactly when it got an HTTP response with a non-200 status or a 200 body
without a `"daily"` key; a `"daily"` object missing the `"time"` array or
missing the `"temperature_2m_max"` array raises `KeyError` instead, and a
network error raises out of the function. -/
theorem c3_weather_failure_signals (s : ℕ) (b : WeatherBody)
    (ts : List String) (temps : List ℚ) :
    (get_weather_data (HttpOutcome.response s b) = Except.ok none ↔ ¬s = 200 ∨ b.daily = none) ∧
    get_weather_data (HttpOutcome.response 200 ⟨some ⟨none, some temps⟩⟩) =
      Except.error PyExn.keyError ∧
    get_weather_data (HttpOutcome.response 200 ⟨some ⟨some ts, none⟩⟩) =
      Except.error PyExn.keyError ∧
    get_weather_data (HttpOutcome.networkError : HttpOutcome WeatherBody) =
      Except.error PyExn.requestsError := by
  refine ⟨?_, rfl, rfl, rfl⟩
  by_cases hs : s = 200
  · subst hs
    rcases hd : b.daily with _ | d
    · simp [get_weather_data, hd]
    · rcases ht : d.time with _ | ts
      · simp [get_weather_data, hd, ht]
      · rcases hm : d.temperature_2m_max with _ | temps2
        · simp [get_weather_data, hd, ht, hm]
        · by_cases hl : ts.length = temps2.length <;>
            simp [get_weather_data, hd, ht, hm, hl]
  · simp [get_weather_data, hs]

/-- C3 witness: the amended theorem's characterisation evaluated on a 500
response. -/
theorem c3_weather_failure_signals_witness :
    get_weather_data (HttpOutcome.response 500 ⟨some ⟨some [], some []⟩⟩) = Except.ok none :=
  (c3_weather_failure_signals 500 ⟨some ⟨some [], some []⟩⟩ [] []).1.mpr (Or.inl (by decide))

/-- C4: whenever both geocoding calls return and either one returns the
not-found signal, the page script shows the city-not-found warning and stops:
no `get_weather_data` call is issued for either city and nothing else is
rendered (no metrics, no chart, no table). -/
theorem c4_geocode_failure_stops (env : Env) (p : String × String) (ra rb : GeoRet)
    (hd : dateRangePair env.dateRange = some p)
    (ha : get_coordinates env.geoA = Except.ok ra)
    (hb : get_coordinates env.geoB = Except.ok rb)
    (hfail : ra = GeoRet.notFound ∨ rb = GeoRet.notFound) :
    run_page env = { geoCalls := [env.cityA, env.cityB], msg := some Msg.warnNotFound } := by
  obtain ⟨ps, pe⟩ := p
  rcases hfail with hf | hf <;> subst hf
  · cases rb <;> simp [run_page, hd, ha, hb]
  · cases ra <;> simp [run_page, hd, ha, hb]

/-- C4 witness: the theorem evaluated on a run whose first geocoding call
returns an empty result list. -/
theorem c4_geocode_failure_stops_witness :
    run_page envC4w = { geoCalls := ["Atlantis", "London"], msg := some Msg.warnNotFound } :=
  c4_geocode_failure_stops envC4w ("2024-01-01", "2024-01-03") GeoRet.notFound
    (GeoRet.found ((515 : ℚ)/10) 0 "London" "United Kingdom") rfl rfl rfl (Or.inl rfl)

/-- C7: whenever the submitted date range fails the guard
`isinstance(date_range, (list, tuple)) and len(date_range) == 2`, the page
script shows the informational prompt and stops: no geocoding call and no
weather-fetch call is issued. -/
theorem c7_bad_date_range_stops (env : Env)
    (h : dateRangePair env.dateRange = none) :
    run_page env = { msg := some Msg.infoPrompt } := by
  simp [run_page, h]

/-- C7 witness: the theorem evaluated on a run where the date picker holds a
single date. -/
theorem c7_bad_date_range_stops_witness :
    run_page envC7w = { msg := some Msg.infoPrompt } :=
  c7_bad_date_range_stops envC7w rfl

/-- C9: the guard `if lat_a and lat_b:` is a Python truthiness test, so a
geocoding *success* whose latitude is the float `0.0` — for either city — is
treated exactly like a failure: the city-not-found warning is shown and no
weather fetch is issued (first conjunct).  Conversely the longitude is never
checked before use: with nonzero latitudes the script proceeds for *any*
longitude values (0.0 included), never shows the not-found warning, and
passes each longitude verbatim to the corresponding `get_weather_data` call
(second conjunct; the shorter fetch list occurs only when the first fetch
raises before the second is issued). -/
theorem c9_truthiness_zero_latitude :
    (∀ (env : Env) (p : String × String) (ra rb : GeoRet) (lon : ℚ) (n c : String),
      dateRangePair env.dateRange = some p →
      get_coordinates env.geoA = Except.ok ra →
      get_coordinates env.geoB = Except.ok rb →
      (ra = GeoRet.found 0 lon n c ∨ rb = GeoRet.found 0 lon n c) →
      run_page env = { geoCalls := [env.cityA, env.cityB], msg := some Msg.warnNotFound }) ∧
    (∀ (env : Env) (ps pe : String) (latA lonA latB lonB : ℚ) (nA cA nB cB : String),
      dateRangePair env.dateRange = some (ps, pe) →
      get_coordinates env.geoA = Except.ok (GeoRet.found latA lonA nA cA) →
      get_coordinates env.geoB = Except.ok (GeoRet.found latB lonB nB cB) →
      ¬latA = 0 → ¬latB = 0 →
      (run_page env).msg ≠ some Msg.warnNotFound ∧
      ((run_page env).fetchCalls = [⟨latA, lonA, ps, pe⟩] ∨
        (run_page env).fetchCalls = [⟨latA, lonA, ps, pe⟩, ⟨latB, lonB, ps, pe⟩])) := by
  constructor
  · intro env p ra rb lon n c hd ha hb hzero
    obtain ⟨ps, pe⟩ := p
    rcases hzero with hz | hz <;> subst hz
    · cases rb <;> simp [run_page, hd, ha, hb]
    · cases ra <;> simp [run_page, hd, ha, hb]
  · intro env ps pe latA lonA latB lonB nA cA nB cB hd ha hb hA0 hB0
    simp only [run_page, hd, ha, hb]
    rw [if_neg (by exact fun h => h.elim hA0 hB0)]
    rcases hwa : get_weather_data env.weatherA with e | odfA
    · simp [fetchPhase, hwa]
    · rcases hwb : get_weather_data env.weatherB with e | odfB
      · simp [fetchPhase, hwa, hwb]
      · rcases odfA with _ | dfA <;> rcases odfB with _ | dfB <;>
          simp only [fetchPhase, hwa, hwb, renderPhase]
        · simp
        · simp
        · simp
        · rcases hp : pivot (tagCity (nA ++ ", " ++ cA) dfA ++ tagCity (nB ++ ", " ++ cB) dfB)
            with e | pt <;> simp [hp]

/-- C9 witness: the first conjunct evaluated on a run whose first city
geocodes to latitude 0.0, and the second on a run where both cities geocode
to longitude 0.0 but nonzero latitudes. -/
theorem c9_truthiness_zero_latitude_witness :
    run_page envC9w = { geoCalls := ["Null Island", "London"], msg := some Msg.warnNotFound } ∧
    ((run_page envC9w2).msg ≠ some Msg.warnNotFound ∧
      ((run_page envC9w2).fetchCalls = [⟨(515 : ℚ)/10, 0, "2024-01-01", "2024-01-03"⟩] ∨
        (run_page envC9w2).fetchCalls = [⟨(515 : ℚ)/10, 0, "2024-01-01", "2024-01-03"⟩,
          ⟨(457 : ℚ)/10, 0, "2024-01-01", "2024-01-03"⟩])) := by
  constructor
  · exact c9_truthiness_zero_latitude.1 envC9w ("2024-01-01", "2024-01-03")
      (GeoRet.found 0 7 "Null Island" "")
      (GeoRet.found ((515 : ℚ)/10) 0 "London" "United Kingdom") 7 "Null Island" ""
      rfl rfl rfl (Or.inl rfl)
  · exact c9_truthiness_zero_latitude.2 envC9w2 "2024-01-01" "2024-01-03"
      ((515 : ℚ)/10) 0 ((457 : ℚ)/10) 0 "Greenwich" "United Kingdom" "Lyon" "France"
      rfl rfl rfl (by norm_num) (by norm_num)

/-- The (index, column) key of a tagged row is its date paired with the tag. -/
theorem tagCity_map_key (label : String) (df : List WeatherRow) :
    (tagCity label df).map (fun r => (r.date, r.city)) =
      (df.map Prod.fst).map (fun d => (d, label)) := by
  simp [tagCity, List.map_map]

/-- Dates of a tagged series are the dates of the series. -/
theorem tagCity_map_date (label : String) (df : List WeatherRow) :
    (tagCity label df).map Row.date = df.map Prod.fst := by
  simp [tagCity, List.map_map]

/-- Every city label of a tagged series is the tag. -/
theorem tagCity_map_city (label : String) (df : List WeatherRow) :
    (tagCity label df).map Row.city = df.map (fun _ => label) := by
  simp only [tagCity, List.map_map]
  rfl

/-- C6: for two fetched daily series (nonempty, no duplicate dates — the
`DailySeries` invariants) tagged with distinct city labels, the pivot
succeeds and the wide table has exactly one column per distinct city label
and exactly one row per date present in either input series, and any
(date, city) combination missing from the inputs yields an absent (empty)
cell rather than an error. -/
theorem c6_pivot_wide_shape (dfA dfB : List WeatherRow) (labelA labelB : String)
    (hlab : labelA ≠ labelB)
    (hA : (dfA.map Prod.fst).Nodup) (hB : (dfB.map Prod.fst).Nodup)
    (hAne : dfA ≠ []) (hBne : dfB ≠ []) :
    ∃ pt : PivotTable,
      pivot (tagCity labelA dfA ++ tagCity labelB dfB) = Except.ok pt ∧
      pt.cities.Nodup ∧ (∀ c, c ∈ pt.cities ↔ c = labelA ∨ c = labelB) ∧
      pt.dates.Nodup ∧
      (∀ d, d ∈ pt.dates ↔ d ∈ dfA.map Prod.fst ∨ d ∈ dfB.map Prod.fst) ∧
      (∀ d c, (∀ r ∈ tagCity labelA dfA ++ tagCity labelB dfB, ¬(r.date = d ∧ r.city = c)) →
        pivotCell (tagCity labelA dfA ++ tagCity labelB dfB) d c = none) := by
  have hkeys : ((tagCity labelA dfA ++ tagCity labelB dfB).map
      (fun r => (r.date, r.city))).Nodup := by
    rw [List.map_append, tagCity_map_key, tagCity_map_key]
    refine List.Nodup.append
      (List.Nodup.map (fun _ _ h => congrArg Prod.fst h) hA)
      (List.Nodup.map (fun _ _ h => congrArg Prod.fst h) hB) ?_
    intro x hx1 hx2
    obtain ⟨d1, _, rfl⟩ := List.mem_map.mp hx1
    obtain ⟨d2, _, h2⟩ := List.mem_map.mp hx2
    exact hlab (congrArg Prod.snd h2.symm)
  have hpiv : pivot (tagCity labelA dfA ++ tagCity labelB dfB) =
      Except.ok ⟨((tagCity labelA dfA ++ tagCity labelB dfB).map Row.date).dedup,
        ((tagCity labelA dfA ++ tagCity labelB dfB).map Row.city).dedup⟩ := by
    rw [pivot, if_pos hkeys]
  refine ⟨_, hpiv, List.nodup_dedup _, ?_, List.nodup_dedup _, ?_, ?_⟩
  · intro c
    show c ∈ ((tagCity labelA dfA ++ tagCity labelB dfB).map Row.city).dedup ↔ _
    rw [List.mem_dedup, List.map_append, tagCity_map_city, tagCity_map_city, List.mem_append]
    constructor
    · rintro (hc | hc)
      · obtain ⟨a, _, rfl⟩ := List.mem_map.mp hc; exact Or.inl rfl
      · obtain ⟨a, _, rfl⟩ := List.mem_map.mp hc; exact Or.inr rfl
    · rintro (rfl | rfl)
      · obtain ⟨a, ha'⟩ := List.exists_mem_of_ne_nil _ hAne
        exact Or.inl (List.mem_map.mpr ⟨a, ha', rfl⟩)
      · obtain ⟨a, ha'⟩ := List.exists_mem_of_ne_nil _ hBne
        exact Or.inr (List.mem_map.mpr ⟨a, ha', rfl⟩)
  · intro d
    show d ∈ ((tagCity labelA dfA ++ tagCity labelB dfB).map Row.date).dedup ↔ _
    rw [List.mem_dedup, List.map_append, tagCity_map_date, tagCity_map_date, List.mem_append]
  · intro d c h
    have hf : (tagCity labelA dfA ++ tagCity labelB dfB).find?
        (fun r => decide (r.date = d ∧ r.city = c)) = none :=
      List.find?_eq_none.mpr (by intro r hr; simpa using h r hr)
    unfold pivotCell
    rw [hf]
    rfl

/-- C6 witness: the theorem evaluated on a 2-day series for one city and a
1-day series for the other. -/
theorem c6_pivot_wide_shape_witness :
    ∃ pt : PivotTable,
      pivot (tagCity "New York, United States" [("2024-01-01", 20), ("2024-01-02", 21)] ++
          tagCity "London, United Kingdom" [("2024-01-01", 10)]) = Except.ok pt ∧
      pt.cities.Nodup ∧
      (∀ c, c ∈ pt.cities ↔ c = "New York, United States" ∨ c = "London, United Kingdom") ∧
      pt.dates.Nodup ∧
      (∀ d, d ∈ pt.dates ↔
        d ∈ [("2024-01-01", (20 : ℚ)), ("2024-01-02", 21)].map Prod.fst ∨
        d ∈ [("2024-01-01", (10 : ℚ))].map Prod.fst) ∧
      (∀ d c,
        (∀ r ∈ tagCity "New York, United States" [("2024-01-01", 20), ("2024-01-02", 21)] ++
            tagCity "London, United Kingdom" [("2024-01-01", 10)], ¬(r.date = d ∧ r.city = c)) →
        pivotCell (tagCity "New York, United States" [("2024-01-01", 20), ("2024-01-02", 21)] ++
          tagCity "London, United Kingdom" [("2024-01-01", 10)]) d c = none) :=
  c6_pivot_wide_shape [("2024-01-01", 20), ("2024-01-02", 21)] [("2024-01-01", 10)]
    "New York, United States" "London, United Kingdom"
    (by decide) (by decide) (by decide) (by decide) (by decide)

/-- C8: on the spec's example scenario (3-day series `[20.0, 21.5, 19.0]` for
City A and `[10.0, 11.0, 9.5]` for City B), the page's mean max temperatures
are `121/6` and `61/6`, which round to `20.17` and `10.17` at two decimal
places, and the pivoted table has 3 rows and 2 columns; no exception
escapes. -/
theorem c8_example_scenario :
    (run_page envC8).metrics = some ((121 : ℚ)/6, (61 : ℚ)/6) ∧
    round ((100 : ℚ) * ((121 : ℚ)/6)) = 2017 ∧
    round ((100 : ℚ) * ((61 : ℚ)/6)) = 1017 ∧
    ((run_page envC8).pivotTable).map (fun pt => (pt.dates.length, pt.cities.length)) =
      some (3, 2) ∧
    (run_page envC8).exn = none := by
  have hdate : dateRangePair envC8.dateRange = some ("2024-01-01", "2024-01-03") := rfl
  have ha : get_coordinates envC8.geoA =
      Except.ok (GeoRet.found ((407 : ℚ)/10) (-74) "New York" "United States") := rfl
  have hb : get_coordinates envC8.geoB =
      Except.ok (GeoRet.found ((515 : ℚ)/10) 0 "London" "United Kingdom") := rfl
  have hwa : get_weather_data envC8.weatherA = Except.ok
      (some [("2024-01-01", (20 : ℚ)), ("2024-01-02", (43 : ℚ)/2), ("2024-01-03", 19)]) := rfl
  have hwb : get_weather_data envC8.weatherB = Except.ok
      (some [("2024-01-01", (10 : ℚ)), ("2024-01-02", 11), ("2024-01-03", (19 : ℚ)/2)]) := rfl
  have hmA : seriesMean [("2024-01-01", (20 : ℚ)), ("2024-01-02", (43 : ℚ)/2), ("2024-01-03", 19)] =
      (121 : ℚ)/6 := by norm_num [seriesMean]
  have hmB : seriesMean [("2024-01-01", (10 : ℚ)), ("2024-01-02", 11), ("2024-01-03", (19 : ℚ)/2)] =
      (61 : ℚ)/6 := by norm_num [seriesMean]
  refine ⟨?_, by norm_num [round_eq], by norm_num [round_eq], ?_, ?_⟩ <;>
    · simp only [run_page, hdate, ha, hb]
      rw [if_neg (by norm_num)]
      simp only [fetchPhase, hwa, hwb, renderPhase]
      simp only [pivot, tagCity, List.map_cons, List.map_nil, List.map_append, hmA, hmB]
      rw [if_pos (by decide)]
      try rfl

/-- In a duplicate-free list, filtering for a present element yields exactly
one hit. -/
theorem length_filter_eq_one_of_nodup {α : Type} [DecidableEq α] {l : List α} {a : α}
    (h : l.Nodup) (ha : a ∈ l) : (l.filter (fun x => x = a)).length = 1 := by
  induction l with
  | nil => cases ha
  | cons x xs ih =>
    rw [List.nodup_cons] at h
    rcases List.mem_cons.mp ha with rfl | hmem
    · rw [List.filter_cons_of_pos (by simp)]
      have hnil : xs.filter (fun y => y = a) = [] := by
        rw [List.filter_eq_nil_iff]
        intro b hb
        simp only [decide_eq_true_eq]
        intro hbx
        exact h.1 (hbx ▸ hb)
      rw [hnil]
      rfl
    · have hxa : ¬x = a := fun hxa => h.1 (hxa ▸ hmem)
      rw [List.filter_cons_of_neg (by simpa using hxa)]
      exact ih h.2 hmem

/-- C10: when both city inputs resolve to the same "name, country" display
label and both weather fetches return series over the same nonempty
duplicate-free date list, the combined long-format table holds two values for
every (date, label) key, and the pivot step raises `ValueError` instead of
rendering the wide table — the at-most-one-value-per-(date, city) invariant
is assumed by the code, never enforced. -/
theorem c10_same_label_pivot_raises (env : Env) (ps pe : String)
    (latA lonA latB lonB : ℚ) (nA cA nB cB : String) (dfA dfB : List WeatherRow)
    (hd : dateRangePair env.dateRange = some (ps, pe))
    (ha : get_coordinates env.geoA = Except.ok (GeoRet.found latA lonA nA cA))
    (hb : get_coordinates env.geoB = Except.ok (GeoRet.found latB lonB nB cB))
    (hA0 : ¬latA = 0) (hB0 : ¬latB = 0)
    (hwa : get_weather_data env.weatherA = Except.ok (some dfA))
    (hwb : get_weather_data env.weatherB = Except.ok (some dfB))
    (hlabel : nA ++ ", " ++ cA = nB ++ ", " ++ cB)
    (hdates : dfB.map Prod.fst = dfA.map Prod.fst)
    (hnodup : (dfA.map Prod.fst).Nodup)
    (hne : dfA ≠ []) :
    (∀ d ∈ dfA.map Prod.fst,
      (((tagCity (nA ++ ", " ++ cA) dfA ++ tagCity (nB ++ ", " ++ cB) dfB).map
          (fun r => (r.date, r.city))).filter
        (fun k => k = (d, nA ++ ", " ++ cA))).length = 2) ∧
    (run_page env).exn = some PyExn.valueError ∧
    (run_page env).pivotTable = none := by
  have hkeys : (tagCity (nA ++ ", " ++ cA) dfA ++ tagCity (nB ++ ", " ++ cB) dfB).map
      (fun r => (r.date, r.city)) =
      (dfA.map Prod.fst).map (fun x => (x, nA ++ ", " ++ cA)) ++
        (dfA.map Prod.fst).map (fun x => (x, nA ++ ", " ++ cA)) := by
    rw [List.map_append, tagCity_map_key, tagCity_map_key, hdates, ← hlabel]
  have hcount : ∀ d ∈ dfA.map Prod.fst,
      (((tagCity (nA ++ ", " ++ cA) dfA ++ tagCity (nB ++ ", " ++ cB) dfB).map
          (fun r => (r.date, r.city))).filter
        (fun k => k = (d, nA ++ ", " ++ cA))).length = 2 := by
    intro d hdmem
    have hnd2 : ((dfA.map Prod.fst).map (fun x => (x, nA ++ ", " ++ cA))).Nodup :=
      List.Nodup.map (fun _ _ h => congrArg Prod.fst h) hnodup
    have hmem2 : (d, nA ++ ", " ++ cA) ∈
        (dfA.map Prod.fst).map (fun x => (x, nA ++ ", " ++ cA)) :=
      List.mem_map.mpr ⟨d, hdmem, rfl⟩
    rw [hkeys, List.filter_append, List.length_append,
      length_filter_eq_one_of_nodup hnd2 hmem2]
  have hdup : ¬((tagCity (nA ++ ", " ++ cA) dfA ++ tagCity (nB ++ ", " ++ cB) dfB).map
      (fun r => (r.date, r.city))).Nodup := by
    rw [hkeys]
    intro hnd
    obtain ⟨x, hx⟩ := List.exists_mem_of_ne_nil _ hne
    have hxk : (x.1, nA ++ ", " ++ cA) ∈
        (dfA.map Prod.fst).map (fun y => (y, nA ++ ", " ++ cA)) :=
      List.mem_map.mpr ⟨x.1, List.mem_map.mpr ⟨x, hx, rfl⟩, rfl⟩
    exact (List.disjoint_of_nodup_append hnd) hxk hxk
  have hpiv : pivot (tagCity (nA ++ ", " ++ cA) dfA ++ tagCity (nB ++ ", " ++ cB) dfB) =
      Except.error PyExn.valueError := by
    rw [pivot, if_neg hdup]
  refine ⟨hcount, ?_, ?_⟩ <;>
    · simp only [run_page, hd, ha, hb]
      rw [if_neg (fun h => h.elim hA0 hB0)]
      simp only [fetchPhase, hwa, hwb, renderPhase, hpiv]
      try rfl

/-- C10 witness: the theorem evaluated on a run where both inputs geocode to
"London, United Kingdom" and both fetches return the same 2-day series. -/
theorem c10_same_label_pivot_raises_witness :
    (∀ d ∈ [("2024-01-01", (10 : ℚ)), ("2024-01-02", 11)].map Prod.fst,
      (((tagCity ("London" ++ ", " ++ "United Kingdom")
            [("2024-01-01", (10 : ℚ)), ("2024-01-02", 11)] ++
          tagCity ("London" ++ ", " ++ "United Kingdom")
            [("2024-01-01", (10 : ℚ)), ("2024-01-02", 11)]).map
          (fun r => (r.date, r.city))).filter
        (fun k => k = (d, "London" ++ ", " ++ "United Kingdom"))).length = 2) ∧
    (run_page envC10w).exn = some PyExn.valueError ∧
    (run_page envC10w).pivotTable = none :=
  c10_same_label_pivot_raises envC10w "2024-01-01" "2024-01-02"
    ((515 : ℚ)/10) (-1) ((515 : ℚ)/10) (-1) "London" "United Kingdom" "London" "United Kingdom"
    [("2024-01-01", 10), ("2024-01-02", 11)] [("2024-01-01", 10), ("2024-01-02", 11)]
    rfl rfl rfl (by norm_num) (by norm_num) rfl rfl rfl rfl (by decide) (by decide)
